import Mathlib

/-!
Verification of the `constgeneric-field-limits` library: a string wrapper
`LengthLimitedField<MIN, MAX>` validated at construction (`TryFrom`/`new`)
and at deserialization (`visit_str`), with passthrough serialization.

Rust strings are modelled as Lean `String`s (both are UTF-8); Rust's
`str::len` (the UTF-8 byte count) is `strLen` below.
-/

namespace ConstGenericFieldLimits

/-- Rust `str::len`: the length of a string in UTF-8 bytes (not characters). -/
def strLen (s : String) : Nat :=
  s.utf8ByteSize

/-- `struct LengthLimitedField<const MIN: usize, const MAX: usize> { inner: String }` -/
structure LengthLimitedField (MIN MAX : Nat) where
  inner : String
deriving DecidableEq

/-- `enum LengthLimitedFieldError { TooLong { len, max }, TooShort { len, min } }` -/
inductive LengthLimitedFieldError where
  | TooLong (len max : Nat)
  | TooShort (len min : Nat)
deriving DecidableEq

/-- The `thiserror`-derived `Display` message of each error variant:
`"Length of value {len:?} longer than {max:?}"` and
`"Length of value {len:?} shorter than {min:?}"`
(`{:?}` on `usize` prints the same decimal digits as `{}`). -/
def LengthLimitedFieldError.message : LengthLimitedFieldError → String
  | .TooLong len max => "Length of value " ++ toString len ++ " longer than " ++ toString max
  | .TooShort len min => "Length of value " ++ toString len ++ " shorter than " ++ toString min

/-- `TryFrom<&str> for LengthLimitedField<MIN, MAX>`: checks `value.len() > MAX`
first, then `value.len() < MIN`, otherwise copies the string in unchanged. -/
def try_from (MIN MAX : Nat) (value : String) :
    Except LengthLimitedFieldError (LengthLimitedField MIN MAX) :=
  let len := strLen value
  if len > MAX then .error (.TooLong len MAX)
  else if len < MIN then .error (.TooShort len MIN)
  else .ok ⟨value⟩

/-- `LengthLimitedField::new`, which just delegates to `Self::try_from`. -/
def LengthLimitedField.new (MIN MAX : Nat) (value : String) :
    Except LengthLimitedFieldError (LengthLimitedField MIN MAX) :=
  try_from MIN MAX value

/-- `Deref for LengthLimitedField`: read-only access to the inner string. -/
def LengthLimitedField.deref {MIN MAX : Nat} (f : LengthLimitedField MIN MAX) : String :=
  f.inner

/-- A scalar of the external serialization format: either a string scalar or
some non-string value (the latter triggers the framework's type-mismatch path). -/
inductive Value where
  | str (s : String)
  | nonString
deriving DecidableEq

/-- The deserialization framework's error representation (`serde::de::Error`):
`custom` carries a message built with `Error::custom(format!("{}", error))`;
`invalidType` carries the visitor's `expecting` text. -/
inductive DeError where
  | custom (msg : String)
  | invalidType (expected : String)
deriving DecidableEq

/-- `Visitor::expecting`: writes
`"a string with length less than {} and greater than {}"` with `MIN` passed
in the first slot and `MAX` in the second, exactly as the source does. -/
def expecting (MIN MAX : Nat) : String :=
  "a string with length less than " ++ toString MIN ++ " and greater than " ++ toString MAX

/-- `Visitor::visit_str`: runs `LengthLimitedField::try_from(v)` and maps any
validation error to `serde::de::Error::custom` of its `Display` text. -/
def visit_str (MIN MAX : Nat) (v : String) :
    Except DeError (LengthLimitedField MIN MAX) :=
  match try_from MIN MAX v with
  | .ok f => .ok f
  | .error e => .error (.custom e.message)

/-- `Deserialize::deserialize`: the framework hands a string scalar to the
visitor's `visit_str`; a non-string scalar takes the visitor's default path,
failing with a type-mismatch error built from `expecting`. -/
def deserialize (MIN MAX : Nat) (v : Value) :
    Except DeError (LengthLimitedField MIN MAX) :=
  match v with
  | .str s => visit_str MIN MAX s
  | .nonString => .error (.invalidType (expecting MIN MAX))

/-- A generic serializer, modelled by its action on string scalars
(`Serializer::serialize_str`), the only method this component ever calls. -/
structure Serializer (Ok Err : Type) where
  serialize_str : String → Except Err Ok

/-- `Serialize::serialize`: calls `serializer.serialize_str(&self.inner)`. -/
def serialize {MIN MAX : Nat} {Ok Err : Type}
    (f : LengthLimitedField MIN MAX) (S : Serializer Ok Err) : Except Err Ok :=
  S.serialize_str f.inner

/-- The serializer of the `Value` format: emitting a string scalar never fails. -/
def valueSerializer : Serializer Value Empty :=
  ⟨fun s => .ok (.str s)⟩

/-- Encoding into the `Value` format: always succeeds, emitting the string scalar. -/
def encode {MIN MAX : Nat} (f : LengthLimitedField MIN MAX) : Value :=
  Value.str f.inner

/-- A string of three 3-byte UTF-8 characters: 9 bytes, 3 characters. -/
def threeWideChars : String := "あああ"

/-! ### Helper lemmas about `try_from` and `visit_str` -/

theorem try_from_tooLong {MIN MAX : Nat} {s : String} (h : MAX < strLen s) :
    try_from MIN MAX s = .error (.TooLong (strLen s) MAX) := by
  simp [try_from, h]

theorem try_from_tooShort {MIN MAX : Nat} {s : String}
    (h1 : ¬ MAX < strLen s) (h2 : strLen s < MIN) :
    try_from MIN MAX s = .error (.TooShort (strLen s) MIN) := by
  simp [try_from, h1, h2]

theorem try_from_ok {MIN MAX : Nat} {s : String}
    (h1 : ¬ MAX < strLen s) (h2 : ¬ strLen s < MIN) :
    try_from MIN MAX s = .ok ⟨s⟩ := by
  simp [try_from, h1, h2]

theorem try_from_ok_elim {MIN MAX : Nat} {s : String} {f : LengthLimitedField MIN MAX}
    (h : try_from MIN MAX s = .ok f) :
    f.inner = s ∧ MIN ≤ strLen s ∧ strLen s ≤ MAX := by
  by_cases h1 : MAX < strLen s
  · rw [try_from_tooLong h1] at h
    exact absurd h (by simp)
  · by_cases h2 : strLen s < MIN
    · rw [try_from_tooShort h1 h2] at h
      exact absurd h (by simp)
    · rw [try_from_ok h1 h2] at h
      cases h
      exact ⟨rfl, Nat.not_lt.mp h2, Nat.not_lt.mp h1⟩

theorem try_from_ok_iff {MIN MAX : Nat} {s : String} :
    (∃ f : LengthLimitedField MIN MAX, try_from MIN MAX s = .ok f) ↔
      MIN ≤ strLen s ∧ strLen s ≤ MAX := by
  constructor
  · rintro ⟨f, hf⟩
    exact (try_from_ok_elim hf).2
  · rintro ⟨hmin, hmax⟩
    exact ⟨⟨s⟩, try_from_ok (Nat.not_lt.mpr hmax) (Nat.not_lt.mpr hmin)⟩

theorem visit_str_ok_iff {MIN MAX : Nat} {s : String} {f : LengthLimitedField MIN MAX} :
    visit_str MIN MAX s = .ok f ↔ try_from MIN MAX s = .ok f := by
  cases h : try_from MIN MAX s <;> simp [visit_str, h]

theorem visit_str_error {MIN MAX : Nat} {s : String} {e : LengthLimitedFieldError}
    (h : try_from MIN MAX s = .error e) :
    visit_str MIN MAX s = .error (.custom e.message) := by
  simp [visit_str, h]

/-! ### Claims -/

/-- Claim C1: for every `MIN` and `MAX` and every string `s` with
`MIN ≤ length(s) ≤ MAX`, construction succeeds and the inner value of the
resulting instance is exactly `s` — no mutation, trimming, truncation or
padding. (`new` delegates to `try_from`, so the same equation covers both.) -/
theorem construct_in_range_identity (MIN MAX : Nat) (s : String)
    (hmin : MIN ≤ strLen s) (hmax : strLen s ≤ MAX) :
    try_from MIN MAX s = .ok ⟨s⟩ ∧
    LengthLimitedField.new MIN MAX s = .ok ⟨s⟩ :=
  have h : try_from MIN MAX s = .ok ⟨s⟩ :=
    try_from_ok (Nat.not_lt.mpr hmax) (Nat.not_lt.mpr hmin)
  ⟨h, h⟩

/-- Witness for C1: `MIN = 1`, `MAX = 4`, `s = "abc"` of length 3. -/
theorem construct_in_range_identity_witness :
    1 ≤ strLen "abc" ∧ strLen "abc" ≤ 4 ∧
      try_from 1 4 "abc" = .ok ⟨"abc"⟩ :=
  ⟨by decide, by decide, (construct_in_range_identity 1 4 "abc" (by decide) (by decide)).1⟩

/-- Claim C2: construction has exactly three mutually exclusive, exhaustive
outcomes — `TooLong{len, MAX}` when `length(s) > MAX`, `TooShort{len, MIN}`
when `length(s) < MIN` (and not longer than `MAX`), success otherwise — and
each error payload carries the offending length and the relevant bound. -/
theorem construct_trichotomy (MIN MAX : Nat) (s : String) :
    (MAX < strLen s ∧
      try_from MIN MAX s = .error (.TooLong (strLen s) MAX)) ∨
    (¬ MAX < strLen s ∧ strLen s < MIN ∧
      try_from MIN MAX s = .error (.TooShort (strLen s) MIN)) ∨
    (MIN ≤ strLen s ∧ strLen s ≤ MAX ∧
      try_from MIN MAX s = .ok ⟨s⟩) := by
  by_cases h1 : MAX < strLen s
  · exact Or.inl ⟨h1, try_from_tooLong h1⟩
  · by_cases h2 : strLen s < MIN
    · exact Or.inr (Or.inl ⟨h1, h2, try_from_tooShort h1 h2⟩)
    · exact Or.inr (Or.inr ⟨Nat.not_lt.mp h2, Nat.not_lt.mp h1, try_from_ok h1 h2⟩)

/-- Claim C3: for every string-scalar input `x`, decoding through the
visitor's `visit_str` succeeds iff direct construction via `try_from`
succeeds, and on success the two results carry equal inner values. -/
theorem decode_construct_equivalence (MIN MAX : Nat) (x : String) :
    (visit_str MIN MAX x).isOk = (try_from MIN MAX x).isOk ∧
    (visit_str MIN MAX x).toOption.map LengthLimitedField.inner
      = (try_from MIN MAX x).toOption.map LengthLimitedField.inner := by
  cases h : try_from MIN MAX x <;>
    simp [visit_str, h, Except.isOk, Except.toBool, Except.toOption]

/-- Claim C4: round-trip law — for every valid instance `v` of
`LengthLimitedField MIN MAX` (one satisfying the length invariant),
decoding the encoding of `v` succeeds and yields an instance whose inner
value equals `v`'s inner value. -/
theorem encode_decode_round_trip (MIN MAX : Nat) (v : LengthLimitedField MIN MAX)
    (hmin : MIN ≤ strLen v.inner) (hmax : strLen v.inner ≤ MAX) :
    deserialize MIN MAX (encode v) = .ok ⟨v.inner⟩ := by
  have h : try_from MIN MAX v.inner = .ok ⟨v.inner⟩ :=
    try_from_ok (Nat.not_lt.mpr hmax) (Nat.not_lt.mpr hmin)
  simp [deserialize, encode, visit_str, h]

/-- Witness for C4: the instance wrapping `"abc"` with `MIN = 1`, `MAX = 4`. -/
theorem encode_decode_round_trip_witness :
    deserialize 1 4 (encode (⟨"abc"⟩ : LengthLimitedField 1 4)) = .ok ⟨"abc"⟩ :=
  encode_decode_round_trip 1 4 ⟨"abc"⟩ (by decide) (by decide)

/-- Claim C5: every instance produced by construction or by decoding
satisfies `MIN ≤ length(inner) ≤ MAX`, and the value is immutable: access
(`deref`) merely reads the inner string and encoding merely emits it, so
every operation preserves the invariant. -/
theorem live_instance_invariant (MIN MAX : Nat) (s : String)
    (f : LengthLimitedField MIN MAX)
    (h : try_from MIN MAX s = .ok f ∨ visit_str MIN MAX s = .ok f) :
    (MIN ≤ strLen f.inner ∧ strLen f.inner ≤ MAX) ∧
    f.deref = f.inner ∧ encode f = Value.str f.inner := by
  have hc : try_from MIN MAX s = .ok f := by
    rcases h with h | h
    · exact h
    · exact visit_str_ok_iff.mp h
  obtain ⟨hinner, hmin, hmax⟩ := try_from_ok_elim hc
  exact ⟨⟨hinner ▸ hmin, hinner ▸ hmax⟩, rfl, rfl⟩

/-- Witness for C5: the instance decoded from `"abc"` with `MIN = 1`, `MAX = 4`. -/
theorem live_instance_invariant_witness :
    (1 ≤ strLen (⟨"abc"⟩ : LengthLimitedField 1 4).inner ∧
      strLen (⟨"abc"⟩ : LengthLimitedField 1 4).inner ≤ 4) ∧
    (⟨"abc"⟩ : LengthLimitedField 1 4).deref = "abc" ∧
    encode (⟨"abc"⟩ : LengthLimitedField 1 4) = Value.str "abc" :=
  live_instance_invariant 1 4 "abc" ⟨"abc"⟩ (Or.inr rfl)

/-- Claim C6: encoding introduces no failure of its own and emits exactly
the inner string as a string-typed scalar: against any serializer it passes
the untouched inner string to `serialize_str`, and against the never-failing
string-scalar serializer it succeeds with exactly that scalar — with no
hypothesis on the instance, hence no re-validation. -/
theorem serialize_passthrough (MIN MAX : Nat) (f : LengthLimitedField MIN MAX) :
    (∀ (Ok Err : Type) (S : Serializer Ok Err),
      serialize f S = S.serialize_str f.inner) ∧
    serialize f valueSerializer = .ok (Value.str f.inner) ∧
    encode f = Value.str f.inner :=
  ⟨fun _ _ _ => rfl, rfl, rfl⟩

/-- Claim C7: in a degenerate configuration `MAX < MIN`, no string is ever
accepted; every input fails, with `TooLong` reported preferentially for
strings longer than `MAX` (the `TooLong` check runs first) and `TooShort`
for every other string. -/
theorem degenerate_config_never_succeeds (MIN MAX : Nat) (h : MAX < MIN)
    (s : String) :
    (∀ f : LengthLimitedField MIN MAX, try_from MIN MAX s ≠ .ok f) ∧
    (MAX < strLen s → try_from MIN MAX s = .error (.TooLong (strLen s) MAX)) ∧
    (¬ MAX < strLen s → try_from MIN MAX s = .error (.TooShort (strLen s) MIN)) := by
  refine ⟨?_, fun h1 => try_from_tooLong h1, fun h1 => ?_⟩
  · intro f hf
    obtain ⟨-, hmin, hmax⟩ := try_from_ok_elim hf
    exact absurd (Nat.le_trans hmin hmax) (Nat.not_le.mpr h)
  · exact try_from_tooShort h1 (Nat.lt_of_le_of_lt (Nat.not_lt.mp h1) h)

/-- Witness for C7: bounds `MIN = 5 > MAX = 2`; `"abc"` (length 3 > 2) fails
with `TooLong`, and `"a"` (length 1 ≤ 2) fails with `TooShort`. -/
theorem degenerate_config_never_succeeds_witness :
    2 < 5 ∧
    try_from 5 2 "abc" = .error (.TooLong 3 2) ∧
    try_from 5 2 "a" = .error (.TooShort 1 5) :=
  ⟨by decide,
    (degenerate_config_never_succeeds 5 2 (by decide) "abc").2.1 (by decide),
    (degenerate_config_never_succeeds 5 2 (by decide) "a").2.2 (by decide)⟩

/-- Claim C8: each validation error's message names the actual length and the
violated bound, following the convention exemplified by
"Length of value 3 shorter than 10", and a decode failure surfaces exactly
the construction error's message text via `Error::custom`. -/
theorem error_message_contract (MIN MAX : Nat) (s : String) :
    (∀ len max, (LengthLimitedFieldError.TooLong len max).message
        = "Length of value " ++ toString len ++ " longer than " ++ toString max) ∧
    (∀ len min, (LengthLimitedFieldError.TooShort len min).message
        = "Length of value " ++ toString len ++ " shorter than " ++ toString min) ∧
    (LengthLimitedFieldError.TooShort 3 10).message
      = "Length of value 3 shorter than 10" ∧
    (∀ e, try_from MIN MAX s = .error e →
      visit_str MIN MAX s = .error (.custom e.message)) :=
  ⟨fun _ _ => rfl, fun _ _ => rfl, rfl, fun _ he => visit_str_error he⟩

/-- Witness for C8: decoding `"ab"` (length 2) with `MIN = 10` surfaces the
same `TooShort` message as direct construction. -/
theorem error_message_contract_witness :
    visit_str 10 100 "ab" = .error (.custom "Length of value 2 shorter than 10") :=
  (error_message_contract 10 100 "ab").2.2.2 (.TooShort 2 10) rfl

/-- Claim C9: `Visitor::expecting` swaps the roles of `MIN` and `MAX`: it
produces "a string with length less than {first} and greater than {second}"
with `MIN` in the first slot and `MAX` in the second, while the corrected
contract is "length at least `MIN` and at most `MAX`" — which is exactly
the acceptance condition of `try_from`, and whose converse wording describes
an empty set whenever `MIN ≤ MAX`. -/
theorem expecting_swaps_min_max (MIN MAX : Nat) :
    expecting MIN MAX
      = "a string with length less than " ++ toString MIN
          ++ " and greater than " ++ toString MAX ∧
    (∀ s, (∃ f : LengthLimitedField MIN MAX, try_from MIN MAX s = .ok f) ↔
      MIN ≤ strLen s ∧ strLen s ≤ MAX) ∧
    (MIN ≤ MAX → ∀ len, ¬ (len < MIN ∧ MAX < len)) := by
  refine ⟨rfl, fun s => try_from_ok_iff, fun h len ⟨h1, h2⟩ => ?_⟩
  exact absurd (Nat.lt_trans (Nat.lt_of_lt_of_le h1 h) h2) (Nat.lt_irrefl len)

/-- Witness for C9: at `MIN = 10`, `MAX = 100` the diagnostic reads
"a string with length less than 10 and greater than 100", and length 50
(accepted) does not satisfy the wording's literal condition. -/
theorem expecting_swaps_min_max_witness :
    expecting 10 100
      = "a string with length less than " ++ toString 10
          ++ " and greater than " ++ toString 100 ∧
    ¬ (50 < 10 ∧ 100 < 50) :=
  ⟨(expecting_swaps_min_max 10 100).1,
    (expecting_swaps_min_max 10 100).2.2 (by decide) 50⟩

/-- Claim C10: length is the UTF-8 byte count (Rust's `str::len`), not the
character count, and construction and decoding use the same measure: the
string of three 3-byte characters has byte length 9 but character count 3,
so whenever `MAX < 9` both `try_from` and `visit_str` reject it as
`TooLong` with length 9. -/
theorem length_is_utf8_byte_count (MIN MAX : Nat) (h : MAX < 9) :
    strLen threeWideChars = 9 ∧
    threeWideChars.length = 3 ∧
    try_from MIN MAX threeWideChars = .error (.TooLong 9 MAX) ∧
    visit_str MIN MAX threeWideChars
      = .error (.custom (LengthLimitedFieldError.TooLong 9 MAX).message) := by
  have h9 : strLen threeWideChars = 9 := by decide
  have hl : try_from MIN MAX threeWideChars = .error (.TooLong 9 MAX) := by
    have h2 : MAX < strLen threeWideChars := by rw [h9]; exact h
    have h3 : try_from MIN MAX threeWideChars
        = .error (.TooLong (strLen threeWideChars) MAX) := try_from_tooLong h2
    rwa [h9] at h3
  exact ⟨h9, by decide, hl, visit_str_error hl⟩

/-- Witness for C10: `MIN = 0`, `MAX = 8 < 9`. -/
theorem length_is_utf8_byte_count_witness :
    strLen threeWideChars = 9 ∧
    threeWideChars.length = 3 ∧
    try_from 0 8 threeWideChars = .error (.TooLong 9 8) ∧
    visit_str 0 8 threeWideChars
      = .error (.custom "Length of value 9 longer than 8") :=
  length_is_utf8_byte_count 0 8 (by decide)

end ConstGenericFieldLimits
